import Mathlib

/-!
Shallow embedding of the subscription/ledger core of the `vpn_bot` repository.

Money amounts (`Float` columns holding decimal currency values in the source)
are modelled as exact signed integers (`Int`) — the operations only ever add,
subtract and compare amounts; timestamps and `timedelta(days=d)` are modelled
as integers counting days.  Database tables are lists of rows;
SQLAlchemy `select ... first()` is `List.find?`, an ORM in-place row update is
a `List.map` that rewrites the matching row, and an autoincrement primary key
is one more than the current maximum.  Remote MikroTik (RAD) calls are network
I/O: their success or reported state enters each operation as an explicit
parameter, and whether/when they are issued is recorded in the result where a
claim needs it.
-/

/-- Row of the `users` table (`models.User`): fields used by the core. -/
structure DbUser where
  id : Nat
  telegram_id : Int
  wallet_balance : Int
deriving DecidableEq, Repr

/-- Row of the `transactions` table (`models.Transaction`). -/
structure Transaction where
  user_id : Nat
  amount : Int
  type : String
  description : String
deriving DecidableEq, Repr

/-- Row of the `payment_receipts` table (`models.PaymentReceipt`). -/
structure PaymentReceipt where
  id : Nat
  user_id : Nat
  amount : Int
  status : String
  admin_note : Option String
deriving DecidableEq, Repr

/-- Row of the `profiles` table (`models.Profile`). -/
structure Profile where
  id : Nat
  name : String
  version : Nat
  price : Int
  validity_days : Int
  data_limit_gb : Int
  server_id : Nat
  is_active : Bool
deriving DecidableEq, Repr

/-- Row of the `subscriptions` table (`models.Subscription`). -/
structure Subscription where
  id : Nat
  user_id : Nat
  server_id : Nat
  profile_id : Nat
  mikrotik_username : String
  mikrotik_password : String
  expiry_date : Int
  total_limit_bytes : Int
deriving DecidableEq, Repr

/-- The persistent store: one list per table touched by the claims. -/
structure DB where
  users : List DbUser
  transactions : List Transaction
  receipts : List PaymentReceipt
  subscriptions : List Subscription
  profiles : List Profile
deriving DecidableEq, Repr

/-- In-place ORM update of the user row(s) matching `uid`
(`user.wallet_balance := f user.wallet_balance`). -/
def updateBalance (l : List DbUser) (uid : Nat) (f : Int → Int) : List DbUser :=
  l.map (fun u => if u.id == uid then { u with wallet_balance := f u.wallet_balance } else u)

/-- `WalletManager.deposit` (src/wallet_manager.py lines 10-40): look the user
up by primary key; if absent return `False`; otherwise add `amount` to
`wallet_balance` (no sign check) and append a `deposit` transaction carrying
exactly the signed `amount`. -/
def deposit (db : DB) (user_id : Nat) (amount : Int) (description : String) : DB × Bool :=
  match db.users.find? (fun u => u.id == user_id) with
  | none => (db, false)
  | some _ =>
    ({ db with
        users := updateBalance db.users user_id (fun b => b + amount),
        transactions := db.transactions ++
          [{ user_id := user_id, amount := amount, type := "deposit",
             description := description }] }, true)

/-- `WalletManager.deduct` (src/wallet_manager.py lines 42-73): fail if the
user is absent or `wallet_balance < amount`; otherwise subtract `amount` and
append a `purchase` transaction of `-amount`. -/
def deduct (db : DB) (user_id : Nat) (amount : Int) (description : String) : DB × Bool :=
  match db.users.find? (fun u => u.id == user_id) with
  | none => (db, false)
  | some u =>
    if u.wallet_balance < amount then (db, false)
    else
      ({ db with
          users := updateBalance db.users user_id (fun b => b - amount),
          transactions := db.transactions ++
            [{ user_id := user_id, amount := -amount, type := "purchase",
               description := description }] }, true)

/-- `select(PaymentReceipt).where(id == rid) ... first()`. -/
def findReceipt (db : DB) (rid : Nat) : Option PaymentReceipt :=
  db.receipts.find? (fun r => r.id == rid)

/-- `WalletManager.approve_receipt` (src/wallet_manager.py lines 75-106):
fail unless the receipt exists with status `pending`; then set
`status = approved` with the admin note and COMMIT, and only afterwards call
`deposit` in a separate session.  The approved status stays committed even
when the deposit fails. -/
def approve_receipt (db : DB) (rid : Nat) (admin_id : Int) : DB × Bool :=
  match findReceipt db rid with
  | none => (db, false)
  | some r =>
    if r.status == "pending" then
      let db1 : DB :=
        { db with
            receipts := db.receipts.map (fun x =>
              if x.id == rid then
                { x with status := "approved",
                         admin_note := some ("Approved by " ++ toString admin_id) }
              else x) }
      deposit db1 r.user_id r.amount ("Receipt #" ++ toString rid)
    else (db, false)

/-- `WalletManager.reject_receipt` (src/wallet_manager.py lines 108-127):
fail only if the receipt is absent; otherwise overwrite `status` with
`rejected` and the admin note — there is no check that the receipt is still
`pending`. -/
def reject_receipt (db : DB) (rid : Nat) (admin_id : Int) (reason : String) : DB × Bool :=
  match findReceipt db rid with
  | none => (db, false)
  | some _ =>
    ({ db with
        receipts := db.receipts.map (fun x =>
          if x.id == rid then
            { x with status := "rejected",
                     admin_note := some ("Rejected by " ++ toString admin_id ++ ": " ++ reason) }
          else x) }, true)

/-- `process_edit_balance` (src/admin_panel.py lines 358-391): find the user
through the subscription with the given MikroTik username, overwrite
`wallet_balance` with `new_balance`, and record a `manual_adjustment`
transaction whose amount is the delta `new_balance - old_balance`. -/
def process_edit_balance (db : DB) (username : String) (new_balance : Int) : DB × Bool :=
  match db.subscriptions.find? (fun s => s.mikrotik_username == username) with
  | none => (db, false)
  | some s =>
    match db.users.find? (fun u => u.id == s.user_id) with
    | none => (db, false)
    | some u =>
      ({ db with
          users := updateBalance db.users u.id (fun _ => new_balance),
          transactions := db.transactions ++
            [{ user_id := u.id, amount := new_balance - u.wallet_balance,
               type := "manual_adjustment",
               description := "Admin manual adjustment" }] }, true)

/-- Outcome shown to the caller of the purchase flow. -/
inductive PurchaseResult where
  | insufficient
  | provisioningError
  | success
deriving DecidableEq, Repr

/-- Autoincrement primary key for a new subscription row. -/
def freshSubId (db : DB) : Nat :=
  db.subscriptions.foldl (fun m s => max m s.id) 0 + 1

/-- `process_purchase_flow`, `confirm_pay` branch (src/bot_handler.py lines
722-801): re-fetch profile and user, call `WalletManager.deduct` for the plan
price; on failure answer "Insufficient funds" and stop.  Otherwise call RAD
`create_user` (its success enters as `mtOk`, the returned `Bool` records that
the call was made); on RAD failure only an error message is shown — no refund
— and no subscription is created.  On success insert the `Subscription` with
`expiry = now + validity_days` and `total_limit_bytes = data_limit_gb * 1024^3`.
`none` models the unhandled exception when profile or user is missing. -/
def process_purchase_flow (db : DB) (tgId : Int) (profileId : Nat) (mtOk : Bool)
    (now : Int) (uname pwd : String) : Option (DB × PurchaseResult × Bool) :=
  match db.profiles.find? (fun p => p.id == profileId),
        db.users.find? (fun u => u.telegram_id == tgId) with
  | some profile, some user =>
    let r := deduct db user.id profile.price ("Purchase: " ++ profile.name)
    if r.2 then
      if mtOk then
        let sub : Subscription :=
          { id := freshSubId r.1, user_id := user.id, server_id := profile.server_id,
            profile_id := profile.id, mikrotik_username := uname,
            mikrotik_password := pwd, expiry_date := now + profile.validity_days,
            total_limit_bytes := profile.data_limit_gb * 1024 ^ 3 }
        some ({ r.1 with subscriptions := r.1.subscriptions ++ [sub] },
              PurchaseResult.success, true)
      else some (r.1, PurchaseResult.provisioningError, true)
    else some (r.1, PurchaseResult.insufficient, false)
  | _, _ => none

/-- Characters of `name` before the first `"_v"`, i.e. Python
`name.split('_v')[0]`. -/
def stemChars : List Char → List Char
  | [] => []
  | '_' :: 'v' :: _ => []
  | c :: rest => c :: stemChars rest

/-- `profile.name.split('_v')[0]` in `renew_subscription`. -/
def familyStem (name : String) : String :=
  String.mk (stemChars name.toList)

/-- `order_by(desc(Profile.version)) ... first()` over a candidate list:
the element with the greatest `version` (first one on ties). -/
def latestByVersion (l : List Profile) : Option Profile :=
  l.foldl (fun acc p =>
    match acc with
    | none => some p
    | some q => if p.version > q.version then some p else acc) none

/-- The plan version the renewal PREVIEW resolves (src/user_features.py lines
49-59): profiles whose name matches `LIKE "{stem}%"` on the same server,
newest version first; the original profile is kept when the newest is itself. -/
def resolveRenewalProfile (db : DB) (profile : Profile) : Profile :=
  match latestByVersion (db.profiles.filter (fun p =>
      (familyStem profile.name).toList.isPrefixOf p.name.toList &&
        p.server_id == profile.server_id)) with
  | none => profile
  | some lp => if lp.id == profile.id then profile else lp

/-- `confirm_renewal` (src/user_features.py lines 105-180): fetch user by
telegram id, the subscription and its ORIGINAL profile (`subscription.
profile_id` — no latest-version resolution here); `deduct` the price; on
failure report "Payment failed" with no further effect.  Otherwise set the new
expiry (`now + validity_days` when already expired, else extend the old
expiry), run the MikroTik calls — whose reported state `mtInfo`
(`none` = `get_user_info` failed/unreachable) changes no local row — and
COMMIT unconditionally.  `none` models the unhandled exception when user,
subscription or profile is missing. -/
def confirm_renewal (db : DB) (tgId : Int) (subId : Nat) (now : Int)
    (mtInfo : Option Bool) : Option (DB × Bool) :=
  match db.users.find? (fun u => u.telegram_id == tgId) with
  | none => none
  | some user =>
    match db.subscriptions.find? (fun s => s.id == subId) with
    | none => none
    | some sub =>
      match db.profiles.find? (fun p => p.id == sub.profile_id) with
      | none => none
      | some profile =>
        let r := deduct db user.id profile.price ("Renewal: " ++ profile.name)
        if r.2 then
          let newExpiry : Int :=
            if sub.expiry_date < now then now + profile.validity_days
            else sub.expiry_date + profile.validity_days
          let _ := mtInfo
          some ({ r.1 with
                    subscriptions := r.1.subscriptions.map (fun s =>
                      if s.id == subId then { s with expiry_date := newExpiry }
                      else s) }, true)
        else some (r.1, false)

/-- Observable calls of the deletion flow, in issue order. -/
inductive DelEvent where
  | radDelete (username : String)
  | localDelete (username : String)
deriving DecidableEq, Repr

/-- `process_delete_confirm` (src/admin_panel.py lines 434-456): only on the
literal confirmation text `DELETE` call RAD `delete_user` first (success
enters as `mtOk`); only when it reports success is the local subscription row
looked up and deleted; on RAD failure the row is retained and failure is
reported.  Returns the store, the reported success, and the calls issued. -/
def process_delete_confirm (db : DB) (text : String) (username : String)
    (mtOk : Bool) : DB × Bool × List DelEvent :=
  if text == "DELETE" then
    if mtOk then
      ({ db with
          subscriptions := db.subscriptions.eraseP
            (fun s => s.mikrotik_username == username) }, true,
        [DelEvent.radDelete username] ++
          (if db.subscriptions.any (fun s => s.mikrotik_username == username) then
            [DelEvent.localDelete username] else []))
    else (db, false, [DelEvent.radDelete username])
  else (db, false, [])

/-- The `type = 'deposit'/'purchase'/'manual_adjustment'` ledger entries of an
account summed: `Σ Transaction.amount` over the rows with this `user_id`. -/
def ledgerSum (ts : List Transaction) (uid : Nat) : Int :=
  ((ts.filter (fun t => t.user_id == uid)).map (fun t => t.amount)).sum

/-- The spec invariant: every cached `wallet_balance` equals the sum of the
account's transaction amounts. -/
def LedgerInv (db : DB) : Prop :=
  ∀ u ∈ db.users, u.wallet_balance = ledgerSum db.transactions u.id

/-- Primary keys of `users` are unique (database PK constraint). -/
def UsersNodup (db : DB) : Prop :=
  (db.users.map (fun u => u.id)).Nodup

/-- Well-formed store for the ledger argument. -/
def WfLedger (db : DB) : Prop :=
  UsersNodup db ∧ LedgerInv db

instance : DecidablePred LedgerInv := fun db => by
  unfold LedgerInv; infer_instance

instance : DecidablePred UsersNodup := fun db => by
  unfold UsersNodup; infer_instance

instance : DecidablePred WfLedger := fun db => by
  unfold WfLedger; infer_instance

/-- The balance-touching operations the ledger claim quantifies over. -/
inductive WalletOp where
  | dep (user_id : Nat) (amount : Int) (description : String)
  | ded (user_id : Nat) (amount : Int) (description : String)
  | editBalance (username : String) (new_balance : Int)
  | approve (rid : Nat) (admin_id : Int)
  | reject (rid : Nat) (admin_id : Int) (reason : String)
deriving DecidableEq, Repr

/-- Run one completed (possibly failed) operation against the store. -/
def applyOp (db : DB) : WalletOp → DB
  | WalletOp.dep uid a d => (deposit db uid a d).1
  | WalletOp.ded uid a d => (deduct db uid a d).1
  | WalletOp.editBalance un nb => (process_edit_balance db un nb).1
  | WalletOp.approve rid aid => (approve_receipt db rid aid).1
  | WalletOp.reject rid aid reason => (reject_receipt db rid aid reason).1

/-- Run a sequence of operations. -/
def runOps (db : DB) (ops : List WalletOp) : DB :=
  ops.foldl applyOp db

/-! ### Helper lemmas -/

theorem find?_update {α : Type} (p : α → Bool) (f : α → α)
    (hf : ∀ a, p a = true → p (f a) = true) :
    ∀ (l : List α) (a : α), l.find? p = some a →
      (l.map (fun x => if p x then f x else x)).find? p = some (f a) := by
  intro l
  induction l with
  | nil => intro _ h; simp [List.find?] at h
  | cons x xs ih =>
    intro a h
    by_cases hx : p x = true
    · rw [List.find?_cons_of_pos _ hx] at h
      injection h with h; subst h
      simp only [List.map_cons, if_pos hx]
      exact List.find?_cons_of_pos _ (hf x hx)
    · rw [List.find?_cons_of_neg _ hx] at h
      simp only [List.map_cons, if_neg hx]
      rw [List.find?_cons_of_neg _ hx]
      exact ih a h

theorem updateBalance_ids (l : List DbUser) (uid : Nat) (f : Int → Int) :
    (updateBalance l uid f).map (fun u => u.id) = l.map (fun u => u.id) := by
  induction l with
  | nil => rfl
  | cons x xs ih =>
    by_cases h : (x.id == uid) = true <;>
      simp only [updateBalance, List.map_cons, if_pos, if_neg, h, ite_true,
        ite_false] <;> simp_all [updateBalance]

theorem find?_updateBalance (l : List DbUser) (uid : Nat) (f : Int → Int)
    (u : DbUser) (h : l.find? (fun x => x.id == uid) = some u) :
    (updateBalance l uid f).find? (fun x => x.id == uid) =
      some { u with wallet_balance := f u.wallet_balance } :=
  find?_update (fun x => x.id == uid)
    (fun x => { x with wallet_balance := f x.wallet_balance })
    (fun _ ha => ha) l u h

theorem ledgerSum_append (ts : List Transaction) (t : Transaction) (uid : Nat) :
    ledgerSum (ts ++ [t]) uid =
      ledgerSum ts uid + (if t.user_id == uid then t.amount else 0) := by
  by_cases h : (t.user_id == uid) = true <;>
    simp [ledgerSum, List.filter_append, h]

theorem mem_updateBalance {l : List DbUser} {uid : Nat} {f : Int → Int}
    {u' : DbUser} (h : u' ∈ updateBalance l uid f) :
    ∃ u ∈ l, u' = if u.id == uid
      then { u with wallet_balance := f u.wallet_balance } else u := by
  obtain ⟨u, hu, hfu⟩ := List.mem_map.mp h
  exact ⟨u, hu, hfu.symm⟩

theorem nodup_id_inj {l : List DbUser}
    (hn : (l.map (fun u => u.id)).Nodup) {a b : DbUser}
    (ha : a ∈ l) (hb : b ∈ l) (hid : a.id = b.id) : a = b :=
  List.inj_on_of_nodup_map hn ha hb hid

/-! ### Preservation of the ledger invariant by each operation -/

theorem wf_deposit (db : DB) (uid : Nat) (a : Int) (d : String)
    (h : WfLedger db) : WfLedger (deposit db uid a d).1 := by
  cases hf : db.users.find? (fun u => u.id == uid) with
  | none => simp only [deposit, hf]; exact h
  | some u0 =>
    simp only [deposit, hf]
    refine ⟨?_, ?_⟩
    · have hn : ((updateBalance db.users uid (fun b => b + a)).map
          (fun u => u.id)).Nodup := by
        rw [updateBalance_ids]; exact h.1
      exact hn
    · intro u' hu'
      have hu2 : u' ∈ updateBalance db.users uid (fun b => b + a) := hu'
      obtain ⟨u, hu, hdef⟩ := mem_updateBalance hu2
      have hinv := h.2 u hu
      show u'.wallet_balance = ledgerSum (db.transactions ++
        [{ user_id := uid, amount := a, type := "deposit",
           description := d }]) u'.id
      rw [ledgerSum_append]
      by_cases hid : u.id = uid
      · have hu' : u' = { u with wallet_balance := u.wallet_balance + a } := by
          simpa [beq_iff_eq, hid] using hdef
        subst hu'
        simp [hid, hinv]
      · have hu' : u' = u := by simpa [beq_iff_eq, hid] using hdef
        subst hu'
        have hne : (uid == u'.id) = false := beq_eq_false_iff_ne.mpr (Ne.symm hid)
        simp [hne, hinv]

theorem wf_deduct (db : DB) (uid : Nat) (a : Int) (d : String)
    (h : WfLedger db) : WfLedger (deduct db uid a d).1 := by
  cases hf : db.users.find? (fun u => u.id == uid) with
  | none => simp only [deduct, hf]; exact h
  | some u0 =>
    by_cases hb : u0.wallet_balance < a
    · simp only [deduct, hf, if_pos hb]; exact h
    · simp only [deduct, hf, if_neg hb]
      refine ⟨?_, ?_⟩
      · have hn : ((updateBalance db.users uid (fun b => b - a)).map
            (fun u => u.id)).Nodup := by
          rw [updateBalance_ids]; exact h.1
        exact hn
      · intro u' hu'
        have hu2 : u' ∈ updateBalance db.users uid (fun b => b - a) := hu'
        obtain ⟨u, hu, hdef⟩ := mem_updateBalance hu2
        have hinv := h.2 u hu
        show u'.wallet_balance = ledgerSum (db.transactions ++
          [{ user_id := uid, amount := -a, type := "purchase",
             description := d }]) u'.id
        rw [ledgerSum_append]
        by_cases hid : u.id = uid
        · have hu' : u' = { u with wallet_balance := u.wallet_balance - a } := by
            simpa [beq_iff_eq, hid] using hdef
          subst hu'
          simp [hid, hinv]
          ring
        · have hu' : u' = u := by simpa [beq_iff_eq, hid] using hdef
          subst hu'
          have hne : (uid == u'.id) = false := beq_eq_false_iff_ne.mpr (Ne.symm hid)
          simp [hne, hinv]

theorem wf_edit (db : DB) (un : String) (nb : Int)
    (h : WfLedger db) : WfLedger (process_edit_balance db un nb).1 := by
  cases hs : db.subscriptions.find? (fun s => s.mikrotik_username == un) with
  | none => simp only [process_edit_balance, hs]; exact h
  | some s =>
    cases hf : db.users.find? (fun u => u.id == s.user_id) with
    | none => simp only [process_edit_balance, hs, hf]; exact h
    | some u1 =>
      simp only [process_edit_balance, hs, hf]
      have hu1mem : u1 ∈ db.users := List.mem_of_find?_eq_some hf
      refine ⟨?_, ?_⟩
      · have hn : ((updateBalance db.users u1.id (fun _ => nb)).map
            (fun u => u.id)).Nodup := by
          rw [updateBalance_ids]; exact h.1
        exact hn
      · intro u' hu'
        have hu2 : u' ∈ updateBalance db.users u1.id (fun _ => nb) := hu'
        obtain ⟨u, hu, hdef⟩ := mem_updateBalance hu2
        have hinv := h.2 u hu
        show u'.wallet_balance = ledgerSum (db.transactions ++
          [{ user_id := u1.id, amount := nb - u1.wallet_balance,
             type := "manual_adjustment",
             description := "Admin manual adjustment" }]) u'.id
        rw [ledgerSum_append]
        by_cases hid : u.id = u1.id
        · have hequ : u = u1 := nodup_id_inj h.1 hu hu1mem hid
          have hu' : u' = { u with wallet_balance := nb } := by
            simpa [beq_iff_eq, hid] using hdef
          subst hu'
          subst hequ
          simp [hinv]
        · have hu' : u' = u := by simpa [beq_iff_eq, hid] using hdef
          subst hu'
          have hne : (u1.id == u'.id) = false := beq_eq_false_iff_ne.mpr (Ne.symm hid)
          simp [hne, hinv]

theorem wf_receipts_update (db : DB) (rs : List PaymentReceipt)
    (h : WfLedger db) : WfLedger { db with receipts := rs } := h

theorem wf_approve (db : DB) (rid : Nat) (aid : Int)
    (h : WfLedger db) : WfLedger (approve_receipt db rid aid).1 := by
  unfold approve_receipt
  cases hf : findReceipt db rid with
  | none => exact h
  | some r =>
    by_cases hst : (r.status == "pending") = true
    · simp only [if_pos hst]
      exact wf_deposit _ _ _ _ (wf_receipts_update db _ h)
    · simp only [if_neg hst]; exact h

theorem wf_reject (db : DB) (rid : Nat) (aid : Int) (reason : String)
    (h : WfLedger db) : WfLedger (reject_receipt db rid aid reason).1 := by
  unfold reject_receipt
  cases hf : findReceipt db rid with
  | none => exact h
  | some r => exact wf_receipts_update db _ h

theorem wf_applyOp (db : DB) (op : WalletOp)
    (h : WfLedger db) : WfLedger (applyOp db op) := by
  cases op with
  | dep uid a d => exact wf_deposit db uid a d h
  | ded uid a d => exact wf_deduct db uid a d h
  | editBalance un nb => exact wf_edit db un nb h
  | approve rid aid => exact wf_approve db rid aid h
  | reject rid aid reason => exact wf_reject db rid aid reason h

theorem wf_runOps (db : DB) (ops : List WalletOp)
    (h : WfLedger db) : WfLedger (runOps db ops) := by
  induction ops generalizing db with
  | nil => exact h
  | cons op rest ih => exact ih (applyOp db op) (wf_applyOp db op h)

/-! ### Concrete stores used as witnesses and failing inputs -/

/-- One account (balance 0), two pending receipts, one subscription. -/
def dbW1 : DB :=
  { users := [{ id := 1, telegram_id := 100, wallet_balance := 0 }],
    transactions := [],
    receipts :=
      [{ id := 1, user_id := 1, amount := 40, status := "pending", admin_note := none },
       { id := 2, user_id := 1, amount := 7, status := "pending", admin_note := none }],
    subscriptions :=
      [{ id := 1, user_id := 1, server_id := 1, profile_id := 1,
         mikrotik_username := "mtu1", mikrotik_password := "pw",
         expiry_date := 100, total_limit_bytes := 0 }],
    profiles := [] }

/-- A mixed operation sequence: successful and failed deposits/deducts, a
receipt approval and rejection, and a manual balance override. -/
def opsW1 : List WalletOp :=
  [WalletOp.dep 1 50 "Deposit", WalletOp.ded 1 70 "Purchase: gold",
   WalletOp.ded 1 30 "Purchase: gold", WalletOp.approve 1 9,
   WalletOp.reject 2 9 "dup", WalletOp.editBalance "mtu1" 5,
   WalletOp.dep 2 10 "Deposit"]

/-- Account with balance 10 and a plan priced 30 (insufficient funds). -/
def dbW2 : DB :=
  { users := [{ id := 1, telegram_id := 100, wallet_balance := 10 }],
    transactions := [], receipts := [], subscriptions := [],
    profiles := [{ id := 1, name := "gold", version := 1, price := 30,
                   validity_days := 30, data_limit_gb := 10, server_id := 1,
                   is_active := true }] }

/-- Account with balance 50 and a plan priced 30 (purchase affordable). -/
def dbC3 : DB :=
  { users := [{ id := 1, telegram_id := 100, wallet_balance := 50 }],
    transactions := [], receipts := [], subscriptions := [],
    profiles := [{ id := 1, name := "gold", version := 1, price := 30,
                   validity_days := 30, data_limit_gb := 10, server_id := 1,
                   is_active := true }] }

/-- As `dbC3` plus an expired subscription (expiry 900, "now" is 1000). -/
def dbC5 : DB :=
  { dbC3 with subscriptions :=
      [{ id := 1, user_id := 1, server_id := 1, profile_id := 1,
         mikrotik_username := "mt1", mikrotik_password := "pw",
         expiry_date := 900, total_limit_bytes := 0 }] }

/-- The original plan of the subscription in `dbC6`. -/
def pC6 : Profile :=
  { id := 1, name := "basic_v1", version := 1, price := 10,
    validity_days := 30, data_limit_gb := 5, server_id := 1, is_active := true }

/-- A subscription bought on `basic_v1` while a newer active `basic_v2`
(different price, validity and cap) exists on the same server. -/
def dbC6 : DB :=
  { users := [{ id := 1, telegram_id := 100, wallet_balance := 100 }],
    transactions := [], receipts := [],
    subscriptions :=
      [{ id := 1, user_id := 1, server_id := 1, profile_id := 1,
         mikrotik_username := "mt1", mikrotik_password := "pw",
         expiry_date := 2000, total_limit_bytes := 0 }],
    profiles :=
      [pC6,
       { id := 2, name := "basic_v2", version := 2, price := 20,
         validity_days := 45, data_limit_gb := 8, server_id := 1,
         is_active := true }] }

/-- An already-approved receipt (a decision was made earlier). -/
def rC7 : PaymentReceipt :=
  { id := 1, user_id := 1, amount := 40, status := "approved",
    admin_note := some "Approved by 9" }

/-- Store holding the already-decided receipt `rC7`. -/
def dbC7 : DB :=
  { users := [{ id := 1, telegram_id := 100, wallet_balance := 40 }],
    transactions := [{ user_id := 1, amount := 40, type := "deposit",
                       description := "Receipt #1" }],
    receipts := [rC7], subscriptions := [], profiles := [] }

/-- A pending receipt whose `user_id` has no user row, so the deposit that
follows the status commit fails. -/
def dbC8 : DB :=
  { users := [], transactions := [],
    receipts := [{ id := 1, user_id := 5, amount := 40, status := "pending",
                   admin_note := none }],
    subscriptions := [], profiles := [] }

/-- A store with one subscription to delete. -/
def dbW9 : DB :=
  { users := [{ id := 1, telegram_id := 100, wallet_balance := 0 }],
    transactions := [], receipts := [],
    subscriptions :=
      [{ id := 1, user_id := 1, server_id := 1, profile_id := 1,
         mikrotik_username := "mt1", mikrotik_password := "pw",
         expiry_date := 900, total_limit_bytes := 0 }],
    profiles := [] }

/-- User row for the signed-deposit witness (balance 3). -/
def uW10 : DbUser := { id := 1, telegram_id := 100, wallet_balance := 3 }

/-- Store for the signed-deposit witness. -/
def dbW10 : DB :=
  { users := [uW10], transactions := [], receipts := [], subscriptions := [],
    profiles := [] }

/-! ### Claim theorems -/

/-- C1: for every account, after any sequence of completed operations
(deposit, deduct, manual admin balance adjustment, receipt approval or
rejection), including failed ones, the cached `wallet_balance` equals the sum
of all `Transaction.amount` rows recorded for that account. -/
theorem ledger_balance_invariant (db : DB) (ops : List WalletOp)
    (h : WfLedger db) :
    ∀ u ∈ (runOps db ops).users,
      u.wallet_balance = ledgerSum (runOps db ops).transactions u.id :=
  (wf_runOps db ops h).2

theorem ledger_balance_invariant_witness :
    WfLedger dbW1 ∧
      ∀ u ∈ (runOps dbW1 opsW1).users,
        u.wallet_balance = ledgerSum (runOps dbW1 opsW1).transactions u.id :=
  ⟨by decide, ledger_balance_invariant dbW1 opsW1 (by decide)⟩

/-- C2: a purchase attempt whose plan price exceeds the account's current
balance fails as insufficient funds and nothing else happens: the store is
returned unchanged (no transaction row, balance untouched, no subscription)
and no RAD call is made (third component `false`). -/
theorem purchase_insufficient_funds_no_effects (db : DB) (tgId : Int)
    (profileId : Nat) (mtOk : Bool) (now : Int) (uname pwd : String)
    (p : Profile) (u : DbUser)
    (hp : db.profiles.find? (fun x => x.id == profileId) = some p)
    (hu : db.users.find? (fun x => x.telegram_id == tgId) = some u)
    (hu2 : db.users.find? (fun x => x.id == u.id) = some u)
    (hlt : u.wallet_balance < p.price) :
    process_purchase_flow db tgId profileId mtOk now uname pwd =
      some (db, PurchaseResult.insufficient, false) := by
  have hd : deduct db u.id p.price ("Purchase: " ++ p.name) = (db, false) := by
    simp only [deduct, hu2, if_pos hlt]
  simp [process_purchase_flow, hp, hu, hd]

theorem purchase_insufficient_funds_no_effects_witness :
    ((10 : Int) < 30) ∧
    process_purchase_flow dbW2 100 1 true 0 "un" "pw" =
      some (dbW2, PurchaseResult.insufficient, false) :=
  ⟨by decide,
   purchase_insufficient_funds_no_effects dbW2 100 1 true 0 "un" "pw"
     { id := 1, name := "gold", version := 1, price := 30, validity_days := 30,
       data_limit_gb := 10, server_id := 1, is_active := true }
     { id := 1, telegram_id := 100, wallet_balance := 10 }
     (by decide) (by decide) (by decide) (by decide)⟩

/-- C3 (code evidence): the purchase debit stays when RAD `create_user`
fails: starting from balance 50 and price 30, the flow returns the
provisioning error after making the RAD call, yet the balance is 20, the
only ledger row is the `-30` purchase (no `refund` row), and no subscription
row exists — the compensating credit the claim describes never happens. -/
theorem purchase_rad_failure_no_refund :
    (process_purchase_flow dbC3 100 1 false 1000 "user1" "pw").map
        (fun r => (r.2.1, r.2.2)) = some (PurchaseResult.provisioningError, true) ∧
    (process_purchase_flow dbC3 100 1 false 1000 "user1" "pw").map
        (fun r => r.1.users.map (fun x => x.wallet_balance)) = some [20] ∧
    (process_purchase_flow dbC3 100 1 false 1000 "user1" "pw").map
        (fun r => r.1.transactions.map (fun t => (t.amount, t.type))) =
      some [(-30, "purchase")] ∧
    (process_purchase_flow dbC3 100 1 false 1000 "user1" "pw").map
        (fun r => r.1.subscriptions) = some [] := by decide

/-- C4: the committed renewal expiry is `now + validity_days` when the
subscription is already expired (`expiry_date < now`), and
`old expiry + validity_days` otherwise. -/
theorem renewal_expiry_computation (db : DB) (tgId : Int) (subId : Nat)
    (now : Int) (mtInfo : Option Bool) (user : DbUser) (sub : Subscription)
    (profile : Profile)
    (hu : db.users.find? (fun x => x.telegram_id == tgId) = some user)
    (hs : db.subscriptions.find? (fun x => x.id == subId) = some sub)
    (hp : db.profiles.find? (fun x => x.id == sub.profile_id) = some profile)
    (hu2 : db.users.find? (fun x => x.id == user.id) = some user)
    (hbal : ¬ user.wallet_balance < profile.price) :
    ∃ db', confirm_renewal db tgId subId now mtInfo = some (db', true) ∧
      db'.subscriptions.find? (fun x => x.id == subId) =
        some { sub with expiry_date :=
          if sub.expiry_date < now then now + profile.validity_days
          else sub.expiry_date + profile.validity_days } := by
  have hd2 : (deduct db user.id profile.price ("Renewal: " ++ profile.name)).2
      = true := by
    simp only [deduct, hu2, if_neg hbal]
  have hd1 : (deduct db user.id profile.price
      ("Renewal: " ++ profile.name)).1.subscriptions = db.subscriptions := by
    simp only [deduct, hu2, if_neg hbal]
  simp only [confirm_renewal, hu, hs, hp, hd2, if_true]
  refine ⟨_, rfl, ?_⟩
  show ((deduct db user.id profile.price
      ("Renewal: " ++ profile.name)).1.subscriptions.map _).find? _ = _
  rw [hd1]
  exact find?_update (fun x => x.id == subId)
    (fun s => { s with expiry_date :=
      if sub.expiry_date < now then now + profile.validity_days
      else sub.expiry_date + profile.validity_days })
    (fun _ ha => ha) db.subscriptions sub hs

theorem renewal_expiry_computation_witness :
    ((900 : Int) < 1000 ∧ ¬ (50 : Int) < 30) ∧
    ∃ db', confirm_renewal dbC5 100 1 1000 (some true) = some (db', true) ∧
      db'.subscriptions.find? (fun x => x.id == 1) =
        some { id := 1, user_id := 1, server_id := 1, profile_id := 1,
               mikrotik_username := "mt1", mikrotik_password := "pw",
               expiry_date := 1030, total_limit_bytes := 0 } := by
  refine ⟨by decide, ?_⟩
  have h := renewal_expiry_computation dbC5 100 1 1000 (some true)
    { id := 1, telegram_id := 100, wallet_balance := 50 }
    { id := 1, user_id := 1, server_id := 1, profile_id := 1,
      mikrotik_username := "mt1", mikrotik_password := "pw",
      expiry_date := 900, total_limit_bytes := 0 }
    { id := 1, name := "gold", version := 1, price := 30, validity_days := 30,
      data_limit_gb := 10, server_id := 1, is_active := true }
    (by decide) (by decide) (by decide) (by decide) (by decide)
  simpa using h

/-- C5 (code evidence): when the backend is unreachable during a renewal
(`get_user_info` yields nothing), the code still reports success, keeps the
renewal debit (balance 20, one `-30` row, no refund row) and commits the
extended expiry 1030 although the stored pre-renewal expiry was 900 — the
refund-and-roll-back the claim describes never happens. -/
theorem renewal_backend_unreachable_commits_anyway :
    (confirm_renewal dbC5 100 1 1000 none).map (fun r => r.2) = some true ∧
    (confirm_renewal dbC5 100 1 1000 none).map
        (fun r => r.1.users.map (fun x => x.wallet_balance)) = some [20] ∧
    (confirm_renewal dbC5 100 1 1000 none).map
        (fun r => r.1.transactions.map (fun t => (t.amount, t.type))) =
      some [(-30, "purchase")] ∧
    (confirm_renewal dbC5 100 1 1000 none).map
        (fun r => (r.1.subscriptions.find? (fun s => s.id == 1)).map
          (fun s => s.expiry_date)) = some (some 1030) ∧
    (dbC5.subscriptions.find? (fun s => s.id == 1)).map
        (fun s => s.expiry_date) = some 900 := by decide

/-- C6 (code evidence): the renewal PREVIEW resolves the newest plan version
of the family (`basic_v2`, id 2, price 20), but the confirmed renewal debits
the original snapshot's price 10 and extends by its 30 days (expiry
2000 → 2030, not 2045) — the executed renewal does not use the latest plan
version. -/
theorem renewal_uses_original_plan_snapshot :
    (resolveRenewalProfile dbC6 pC6).id = 2 ∧
    (resolveRenewalProfile dbC6 pC6).price = 20 ∧
    (confirm_renewal dbC6 100 1 1000 (some true)).map
        (fun r => r.1.transactions.map (fun t => t.amount)) = some [-10] ∧
    (confirm_renewal dbC6 100 1 1000 (some true)).map
        (fun r => (r.1.subscriptions.find? (fun s => s.id == 1)).map
          (fun s => s.expiry_date)) = some (some 2030) := by decide

/-- C7 (counterexample): it is not true that every decision attempt on a
non-pending receipt fails and leaves the store unchanged — rejecting the
already-approved receipt of `dbC7` succeeds and overwrites it. -/
theorem reject_nonpending_counterexample :
    ¬ (∀ (db : DB) (rid : Nat) (admin_id : Int) (reason : String)
        (r : PaymentReceipt), findReceipt db rid = some r →
        r.status ≠ "pending" →
        (reject_receipt db rid admin_id reason).2 = false ∧
        (reject_receipt db rid admin_id reason).1 = db) := by
  intro hclaim
  have h := hclaim dbC7 1 9 "second decision" rC7 (by decide) (by decide)
  exact absurd h.1 (by decide)

/-- C7 (amended): on a receipt whose status is not `pending`,
`approve_receipt` fails and changes nothing; `reject_receipt`, however,
succeeds on any existing receipt regardless of its status, overwriting the
status to `rejected` and the decision memo — though it changes no ledger
state (users and transactions untouched). -/
theorem receipt_decision_amended (db : DB) (rid : Nat) (admin_id : Int)
    (reason : String) (r : PaymentReceipt)
    (hfind : findReceipt db rid = some r) (hnp : r.status ≠ "pending") :
    approve_receipt db rid admin_id = (db, false) ∧
    (reject_receipt db rid admin_id reason).2 = true ∧
    (reject_receipt db rid admin_id reason).1.users = db.users ∧
    (reject_receipt db rid admin_id reason).1.transactions = db.transactions ∧
    findReceipt (reject_receipt db rid admin_id reason).1 rid =
      some { r with
              status := "rejected",
              admin_note := some ("Rejected by " ++ toString admin_id ++ ": "
                ++ reason) } := by
  have hb : (r.status == "pending") = false := beq_eq_false_iff_ne.mpr hnp
  refine ⟨?_, ?_, ?_, ?_, ?_⟩
  · simp [approve_receipt, hfind, hb]
  · simp [reject_receipt, hfind]
  · simp [reject_receipt, hfind]
  · simp [reject_receipt, hfind]
  · have hfind2 : db.receipts.find? (fun x => x.id == rid) = some r := hfind
    simp only [reject_receipt, findReceipt, hfind2]
    exact find?_update (fun x => x.id == rid)
      (fun x => { x with
                   status := "rejected",
                   admin_note := some ("Rejected by " ++ toString admin_id
                     ++ ": " ++ reason) })
      (fun _ ha => ha) db.receipts r hfind2

theorem receipt_decision_amended_witness :
    (findReceipt dbC7 1 = some rC7 ∧ rC7.status ≠ "pending") ∧
    (approve_receipt dbC7 1 9 = (dbC7, false) ∧
      (reject_receipt dbC7 1 9 "x").2 = true ∧
      (reject_receipt dbC7 1 9 "x").1.users = dbC7.users ∧
      (reject_receipt dbC7 1 9 "x").1.transactions = dbC7.transactions ∧
      findReceipt (reject_receipt dbC7 1 9 "x").1 1 =
        some { rC7 with
                status := "rejected",
                admin_note := some ("Rejected by " ++ toString (9 : Int) ++ ": "
                  ++ "x") }) :=
  ⟨⟨by decide, by decide⟩,
   receipt_decision_amended dbC7 1 9 "x" rC7 (by decide) (by decide)⟩

/-- C8 (code evidence): approving the pending receipt of `dbC8` (whose
account row is missing, so the follow-up deposit fails) returns failure, yet
the receipt is left committed as `approved` with no transaction row — the
receipt does not remain `pending` as the claim requires. -/
theorem approve_receipt_nonatomic :
    (approve_receipt dbC8 1 9).2 = false ∧
    ((approve_receipt dbC8 1 9).1.receipts.map (fun r => r.status)) =
      ["approved"] ∧
    (approve_receipt dbC8 1 9).1.transactions = [] := by decide

/-- C9: on the confirmation text, the deletion flow calls RAD `delete_user`
first; when RAD reports failure the store is returned unchanged with failure
reported and only the RAD call in the trace; the local subscription list can
change only when RAD reported success, and then the trace shows the RAD
delete strictly before the local delete. -/
theorem delete_remote_before_local (db : DB) (username : String) :
    process_delete_confirm db "DELETE" username false =
      (db, false, [DelEvent.radDelete username]) ∧
    (∀ mtOk : Bool,
      (process_delete_confirm db "DELETE" username mtOk).1.subscriptions ≠
          db.subscriptions →
        mtOk = true ∧
        (process_delete_confirm db "DELETE" username mtOk).2.2 =
          [DelEvent.radDelete username, DelEvent.localDelete username]) := by
  constructor
  · simp [process_delete_confirm]
  · intro mtOk hne
    cases mtOk with
    | false =>
      exact absurd (by simp [process_delete_confirm] :
        (process_delete_confirm db "DELETE" username false).1.subscriptions =
          db.subscriptions) hne
    | true =>
      refine ⟨rfl, ?_⟩
      cases hany : db.subscriptions.any
          (fun s => s.mikrotik_username == username) with
      | false =>
        exfalso
        apply hne
        simp only [List.any_eq_false] at hany
        have her : db.subscriptions.eraseP
            (fun s => s.mikrotik_username == username) = db.subscriptions :=
          List.eraseP_of_forall_not hany
        simp [process_delete_confirm, her]
      | true => simp [process_delete_confirm, hany]

theorem delete_remote_before_local_witness :
    (process_delete_confirm dbW9 "DELETE" "mt1" false =
      (dbW9, false, [DelEvent.radDelete "mt1"])) ∧
    ((process_delete_confirm dbW9 "DELETE" "mt1" true).1.subscriptions ≠
      dbW9.subscriptions) ∧
    ((process_delete_confirm dbW9 "DELETE" "mt1" true).2.2 =
      [DelEvent.radDelete "mt1", DelEvent.localDelete "mt1"]) :=
  ⟨(delete_remote_before_local dbW9 "mt1").1, by decide,
   ((delete_remote_before_local dbW9 "mt1").2 true (by decide)).2⟩

/-- C10: `deposit` performs no sign check: for any existing user and any
rational `amount` — negative included — it succeeds, adds `amount` to the
cached balance, and records a `deposit` transaction carrying exactly that
signed amount; a negative amount strictly decreases the balance. -/
theorem deposit_unchecked_signed_amount (db : DB) (uid : Nat) (amount : Int)
    (d : String) (u : DbUser)
    (hu : db.users.find? (fun x => x.id == uid) = some u) :
    (deposit db uid amount d).2 = true ∧
    (deposit db uid amount d).1.transactions = db.transactions ++
      [{ user_id := uid, amount := amount, type := "deposit",
         description := d }] ∧
    (deposit db uid amount d).1.users.find? (fun x => x.id == uid) =
      some { u with wallet_balance := u.wallet_balance + amount } ∧
    (amount < 0 → u.wallet_balance + amount < u.wallet_balance) := by
  refine ⟨?_, ?_, ?_, ?_⟩
  · simp [deposit, hu]
  · simp [deposit, hu]
  · have h := find?_updateBalance db.users uid (fun b => b + amount) u hu
    simp only [deposit, hu]
    exact h
  · intro hneg; linarith

theorem deposit_unchecked_signed_amount_witness :
    (dbW10.users.find? (fun x => x.id == 1) = some uW10) ∧
    ((deposit dbW10 1 (-5) "Deposit").2 = true ∧
      (deposit dbW10 1 (-5) "Deposit").1.transactions = dbW10.transactions ++
        [{ user_id := 1, amount := -5, type := "deposit",
           description := "Deposit" }] ∧
      (deposit dbW10 1 (-5) "Deposit").1.users.find? (fun x => x.id == 1) =
        some { uW10 with wallet_balance := uW10.wallet_balance + (-5) } ∧
      ((-5 : Int) < 0 → uW10.wallet_balance + (-5) < uW10.wallet_balance)) ∧
    ((deposit dbW10 1 (-5) "Deposit").1.users.map
      (fun x => x.wallet_balance)) = [-2] ∧ ((-2 : Int) < 0) :=
  ⟨by decide,
   deposit_unchecked_signed_amount dbW10 1 (-5) "Deposit" uW10 (by decide),
   by decide, by decide⟩
